import Mathlib

/-!
Shallow embedding of the Swaad Station coupon web service (`src/app.py`).

The store is modelled as a list of coupon documents plus the singleton
config document.  Each HTTP handler becomes a pure function from its
request data and the current store to a response value and the new store.
`datetime.now()` is passed in as a `Nat` timestamp, the random
`str(uuid.uuid4())[:8]` as a `String` argument, and the environment
variable `MASTER_IP` as an explicit `master_ip` argument.
-/

namespace SwaasStation

/-- The default privileged address: `os.getenv('MASTER_IP', '192.168.137.1')`. -/
def default_master_ip : String := "192.168.137.1"

/-- One day in seconds: both `timedelta(days=1)` and the cookie lifetime
`max_age=24 * 60 * 60` in `generate_coupon`. -/
def one_day : Nat := 86400

/-- A coupon document as stored in the `coupons` collection
(`coupon_data`, app.py lines 179-188).  `id` stands for the Mongo `_id`. -/
structure Coupon where
  id : String
  valid : Bool
  expiry_date : Nat
  discount : String
  used : Bool
  generating_ip : String
  generated_by_master : Bool
  created_at : Nat
deriving Repr, DecidableEq

/-- The singleton config document `{'_id': 'coupon_limit', 'limit', 'current_count'}`. -/
structure Config where
  limit : Int
  current_count : Int
deriving Repr, DecidableEq

/-- The persistent store: the coupons collection and the config singleton. -/
structure AppState where
  coupons : List Coupon
  config : Config
deriving Repr, DecidableEq

/-- `coupons_collection.find_one({'_id': coupon_id})`: the first document
whose id equals `cid`. -/
def find_coupon : List Coupon → String → Option Coupon
  | [], _ => none
  | c :: cs, cid => if c.id == cid then some c else find_coupon cs cid

/-- `coupons_collection.find_one({'generating_ip': ip})`, used only as a
truthiness test: does some document have `generating_ip = ip`? -/
def some_coupon_from_ip : List Coupon → String → Bool
  | [], _ => false
  | c :: cs, ip => if c.generating_ip == ip then true else some_coupon_from_ip cs ip

/-- `is_ip_allowed` (app.py lines 62-64): the IP is the master IP or has
never generated a coupon before. -/
def is_ip_allowed (master_ip ip : String) (coupons : List Coupon) : Bool :=
  ip == master_ip || !(some_coupon_from_ip coupons ip)

/-- `can_generate_coupon` (app.py lines 66-69): `current_count < limit`. -/
def can_generate_coupon (config : Config) : Bool :=
  decide (config.current_count < config.limit)

/-- `increment_coupon_count` (app.py lines 71-76): `$inc current_count` by one. -/
def increment_coupon_count (config : Config) : Config :=
  { config with current_count := config.current_count + 1 }

/-- `update_one({'_id': cid}, {'$set': {'used': True}})`: set the used flag
on the first document whose id equals `cid`; a no-op when none matches. -/
def set_used : List Coupon → String → List Coupon
  | [], _ => []
  | c :: cs, cid =>
    if c.id == cid then { c with used := true } :: cs else c :: set_used cs cid

/-- The response of a successful `/generate_coupon` call: a PDF download
plus the marker cookie set on the response (app.py lines 201-207). -/
structure PdfResponse where
  download_name : String
  mimetype : String
  as_attachment : Bool
  cookie_name : String
  cookie_value : String
  cookie_max_age : Nat
deriving Repr, DecidableEq

/-- Outcome of the `/generate_coupon` handler. -/
inductive GenOutcome where
  | rejected (status : Nat) (error : String) (message : String)
  | issued (resp : PdfResponse)
deriving Repr, DecidableEq

/-- Whether the issuance handler succeeded (returned the PDF response). -/
def GenOutcome.isSuccess : GenOutcome → Bool
  | .issued _ => true
  | .rejected _ _ _ => false

/-- The `/generate_coupon` handler (app.py lines 154-215).
`cookie_present` models `request.cookies.get('coupon_generated')` being
set, `client_ip` is `request.remote_addr`, `coupon_id` the fresh random
identifier and `now` the value of `datetime.now()`. -/
def generate_coupon (master_ip : String) (cookie_present : Bool) (client_ip : String)
    (coupon_id : String) (now : Nat) (s : AppState) : GenOutcome × AppState :=
  if cookie_present then
    (.rejected 403 "Coupon generation not allowed"
      "You have already generated a coupon. Only one coupon per device is allowed.", s)
  else if !can_generate_coupon s.config && client_ip != master_ip then
    (.rejected 403 "Coupon generation not allowed"
      "Coupon limit reached. Please try again later.", s)
  else
    let expiry_date := now + one_day
    let coupon_data : Coupon :=
      { id := coupon_id
        valid := true
        expiry_date := expiry_date
        discount := "10%"
        used := false
        generating_ip := client_ip
        generated_by_master := client_ip == master_ip
        created_at := now }
    let coupons := s.coupons ++ [coupon_data]
    let config :=
      if client_ip != master_ip then increment_coupon_count s.config else s.config
    (.issued
      { download_name := "swaad_station_coupon_" ++ coupon_id ++ ".pdf"
        mimetype := "application/pdf"
        as_attachment := true
        cookie_name := "coupon_generated"
        cookie_value := "true"
        cookie_max_age := one_day },
     { coupons := coupons, config := config })

/-- A JSON response of the `/validate_coupon/<id>` handler.  Every branch
of the handler returns via plain `jsonify`, hence HTTP status 200. -/
structure ValResponse where
  status : Nat
  valid : Bool
  message : String
  discount : Option String
deriving Repr, DecidableEq

/-- The `/validate_coupon/<coupon_id>` handler (app.py lines 217-241). -/
def validate_coupon (now : Nat) (coupon_id : String) (s : AppState) :
    ValResponse × AppState :=
  match find_coupon s.coupons coupon_id with
  | none =>
    ({ status := 200, valid := false, message := "Coupon not found", discount := none }, s)
  | some coupon =>
    if coupon.used then
      ({ status := 200, valid := false, message := "Coupon already used", discount := none }, s)
    else if coupon.expiry_date < now then
      ({ status := 200, valid := false, message := "Coupon expired", discount := none }, s)
    else
      ({ status := 200, valid := true
         message := "Valid coupon - 10% discount applied at Swaad Station"
         discount := some coupon.discount },
       { s with coupons := set_used s.coupons coupon_id })

/-- Outcome of the `/admin/reset_limit` handler. -/
inductive ResetOutcome where
  | unauthorized (status : Nat) (error : String)
  | ok (message : String) (new_limit : Int)
deriving Repr, DecidableEq

/-- The `/admin/reset_limit` handler (app.py lines 249-269).  `body_limit`
models `request.json.get('limit', 150)`: `none` when the JSON body has no
`limit` key. -/
def reset_limit (master_ip client_ip : String) (body_limit : Option Int) (s : AppState) :
    ResetOutcome × AppState :=
  if client_ip != master_ip then
    (.unauthorized 403 "Unauthorized", s)
  else
    let new_limit := body_limit.getD 150
    (.ok ("Coupon limit reset to " ++ toString new_limit) new_limit,
     { s with config := { limit := new_limit, current_count := 0 } })

/-- An empty store with the freshly initialised config document. -/
def s0 : AppState :=
  { coupons := [], config := { limit := 150, current_count := 0 } }

/-- A coupon previously issued to the non-privileged IP 1.2.3.4. -/
def coupon_a : Coupon :=
  { id := "aaaa1111"
    valid := true
    expiry_date := one_day
    discount := "10%"
    used := false
    generating_ip := "1.2.3.4"
    generated_by_master := false
    created_at := 0 }

/-- A store in which IP 1.2.3.4 has already been issued one coupon and the
quota is far from reached. -/
def s_repeat : AppState :=
  { coupons := [coupon_a], config := { limit := 150, current_count := 1 } }

/-- C8: `can_generate_coupon` returns false exactly when
`current_count ≥ limit`, and (being a pure function of the config) it
performs no writes. -/
theorem can_generate_iff (config : Config) :
    can_generate_coupon config = false ↔ config.limit ≤ config.current_count := by
  simp [can_generate_coupon, not_lt]

/-- Witness for C8 at the concrete config `limit = 2`, `current_count = 2`. -/
theorem can_generate_iff_witness :
    can_generate_coupon { limit := 2, current_count := 2 } = false :=
  (can_generate_iff { limit := 2, current_count := 2 }).mpr (by decide)

/-- C3: whenever the marker cookie is present, issuance is rejected with a
403 "already issued" response, for every caller IP and every store state,
and the store (coupons and count) is unchanged. -/
theorem cookie_blocks_issuance (master_ip client_ip coupon_id : String) (now : Nat)
    (s : AppState) :
    generate_coupon master_ip true client_ip coupon_id now s =
      (.rejected 403 "Coupon generation not allowed"
        "You have already generated a coupon. Only one coupon per device is allowed.", s) := by
  simp [generate_coupon]

/-- C10: a privileged reset whose JSON body omits the `limit` key sets the
limit to the default 150 and the count to zero, and reports 150 back. -/
theorem reset_default_150 (master_ip : String) (s : AppState) :
    reset_limit master_ip master_ip none s =
      (.ok "Coupon limit reset to 150" 150,
       { s with config := { limit := 150, current_count := 0 } }) := by
  simp [reset_limit, Option.getD]
  rfl

/-- C1: the issuance handler does NOT enforce `is_ip_allowed`.  At a store
where IP 1.2.3.4 already owns a coupon (so `is_ip_allowed` is false for
it), a cookie-less request from that IP is still issued a coupon, leaving
two persisted coupons originating from that IP. -/
theorem repeat_ip_issued_again :
    is_ip_allowed default_master_ip "1.2.3.4" s_repeat.coupons = false ∧
    (generate_coupon default_master_ip false "1.2.3.4" "bbbb2222" 0 s_repeat).1.isSuccess = true ∧
    ((generate_coupon default_master_ip false "1.2.3.4" "bbbb2222" 0 s_repeat).2.coupons.countP
        (fun c => c.generating_ip == "1.2.3.4")) = 2 :=
  ⟨rfl, rfl, rfl⟩

/-- C4 counterexample: an issuance request from the privileged address with
the marker cookie present does not succeed (it is rejected with 403), so
not every privileged request succeeds. -/
theorem master_with_cookie_not_issued :
    (generate_coupon default_master_ip true default_master_ip "cccc3333" 0 s0).1.isSuccess
      = false ∧
    (generate_coupon default_master_ip true default_master_ip "cccc3333" 0 s0).2 = s0 :=
  ⟨rfl, rfl⟩

/-- C4 (amended to cookie-less requests): every issuance request from the
privileged address carrying no marker cookie succeeds, for every store
state (hence regardless of whether `current_count` has reached the limit),
and leaves the config — in particular `current_count` — unchanged. -/
theorem master_issuance_succeeds_no_increment (master_ip coupon_id : String) (now : Nat)
    (s : AppState) :
    (generate_coupon master_ip false master_ip coupon_id now s).1.isSuccess = true ∧
    (generate_coupon master_ip false master_ip coupon_id now s).2.config = s.config := by
  simp [generate_coupon, GenOutcome.isSuccess]

/-- C5: every issuance that passes the cookie and quota gates persists a
new coupon record with `used = false`, `valid = true`, discount `10%`,
expiry `now + one_day`, the caller as originating IP, the master flag set
iff the caller is the privileged address; increments the count iff the
caller is not privileged; and responds with a PDF attachment while setting
the marker cookie for one day. -/
theorem issuance_persists_record (master_ip client_ip coupon_id : String) (now : Nat)
    (s : AppState)
    (hpass : (can_generate_coupon s.config || client_ip == master_ip) = true) :
    generate_coupon master_ip false client_ip coupon_id now s =
      (.issued
        { download_name := "swaad_station_coupon_" ++ coupon_id ++ ".pdf"
          mimetype := "application/pdf"
          as_attachment := true
          cookie_name := "coupon_generated"
          cookie_value := "true"
          cookie_max_age := one_day },
       { coupons := s.coupons ++
           [{ id := coupon_id
              valid := true
              expiry_date := now + one_day
              discount := "10%"
              used := false
              generating_ip := client_ip
              generated_by_master := client_ip == master_ip
              created_at := now }],
         config := if client_ip == master_ip then s.config
                   else increment_coupon_count s.config }) := by
  cases hcg : can_generate_coupon s.config <;> cases hip : client_ip == master_ip <;>
    simp_all [generate_coupon, bne]

/-- Witness for C5: a first non-privileged issuance on the fresh store. -/
theorem issuance_persists_record_witness :
    (can_generate_coupon s0.config || "1.2.3.4" == default_master_ip) = true ∧
    (generate_coupon default_master_ip false "1.2.3.4" "dddd4444" 7 s0).2.config =
      { limit := 150, current_count := 1 } :=
  ⟨rfl, by
    rw [issuance_persists_record default_master_ip "1.2.3.4" "dddd4444" 7 s0 rfl]
    rfl⟩

/-- Looking up a coupon after `set_used` on its id finds the same record
with only the used flag set. -/
theorem find_coupon_set_used (coupons : List Coupon) (cid : String) (c : Coupon)
    (h : find_coupon coupons cid = some c) :
    find_coupon (set_used coupons cid) cid = some { c with used := true } := by
  induction coupons with
  | nil => simp [find_coupon] at h
  | cons a as ih =>
    by_cases ha : a.id == cid
    · simp [find_coupon, ha] at h
      subst h
      simp [set_used, ha, find_coupon]
    · simp [find_coupon, ha] at h
      simp [set_used, ha, find_coupon]
      exact ih h

/-- A validation of a coupon whose used flag is already true reports
"Coupon already used" and leaves the store untouched. -/
theorem validate_used_noop (t : Nat) (cid : String) (s : AppState) (c : Coupon)
    (hf : find_coupon s.coupons cid = some c) (hu : c.used = true) :
    validate_coupon t cid s =
      ({ status := 200, valid := false, message := "Coupon already used", discount := none },
       s) := by
  simp [validate_coupon, hf, hu]

/-- Running a sequence of validation calls for `cid` at the given times,
threading the store. -/
def run_validations (cid : String) (times : List Nat) (s : AppState) : AppState :=
  times.foldl (fun st t => (validate_coupon t cid st).2) s

/-- C2: the first validation of an unexpired, unused coupon succeeds with
discount "10%"; afterwards every further validation of the same id — at
any time, across any sequence of calls — reports "Coupon already used" and
no longer changes the store, so the used flag flips at most once. -/
theorem used_flips_at_most_once (s : AppState) (cid : String) (c : Coupon) (now : Nat)
    (hfind : find_coupon s.coupons cid = some c)
    (hused : c.used = false)
    (hexp : ¬ c.expiry_date < now)
    (hdisc : c.discount = "10%") :
    (validate_coupon now cid s).1.valid = true ∧
    (validate_coupon now cid s).1.discount = some "10%" ∧
    (∀ t : Nat,
      validate_coupon t cid (validate_coupon now cid s).2 =
        ({ status := 200, valid := false, message := "Coupon already used", discount := none },
         (validate_coupon now cid s).2)) ∧
    (∀ times : List Nat,
      run_validations cid times (validate_coupon now cid s).2 =
        (validate_coupon now cid s).2) := by
  have hval : validate_coupon now cid s =
      ({ status := 200, valid := true
         message := "Valid coupon - 10% discount applied at Swaad Station"
         discount := some c.discount },
       { s with coupons := set_used s.coupons cid }) := by
    simp [validate_coupon, hfind, hused, hexp]
  have hfind2 : find_coupon (set_used s.coupons cid) cid = some { c with used := true } :=
    find_coupon_set_used s.coupons cid c hfind
  have hstep : ∀ t : Nat,
      validate_coupon t cid { s with coupons := set_used s.coupons cid } =
        ({ status := 200, valid := false, message := "Coupon already used", discount := none },
         { s with coupons := set_used s.coupons cid }) := fun t =>
    validate_used_noop t cid _ _ hfind2 rfl
  refine ⟨by rw [hval], by rw [hval, hdisc], ?_, ?_⟩
  · intro t
    rw [hval]
    exact hstep t
  · intro times
    rw [hval]
    induction times with
    | nil => rfl
    | cons t ts ih =>
      simp only [run_validations, List.foldl_cons] at ih ⊢
      rw [hstep t]
      exact ih

/-- Witness for C2: the coupon issued to 1.2.3.4 in `s_repeat`, validated
at time 0. -/
theorem used_flips_at_most_once_witness :
    coupon_a.used = false ∧ (validate_coupon 0 "aaaa1111" s_repeat).1.valid = true :=
  ⟨rfl, (used_flips_at_most_once s_repeat "aaaa1111" coupon_a 0 rfl rfl (by decide) rfl).1⟩

/-- C6: the validation checks apply in order — no record: "Coupon not
found"; used flag true: "Coupon already used" regardless of expiry; past
expiry: "Coupon expired"; otherwise the used flag is set and the stored
discount is returned — and every branch answers with HTTP status 200. -/
theorem validation_check_order (now : Nat) (cid : String) (s : AppState) :
    (find_coupon s.coupons cid = none →
      validate_coupon now cid s =
        ({ status := 200, valid := false, message := "Coupon not found", discount := none },
         s)) ∧
    (∀ c, find_coupon s.coupons cid = some c → c.used = true →
      validate_coupon now cid s =
        ({ status := 200, valid := false, message := "Coupon already used", discount := none },
         s)) ∧
    (∀ c, find_coupon s.coupons cid = some c → c.used = false → c.expiry_date < now →
      validate_coupon now cid s =
        ({ status := 200, valid := false, message := "Coupon expired", discount := none },
         s)) ∧
    (∀ c, find_coupon s.coupons cid = some c → c.used = false → ¬ c.expiry_date < now →
      validate_coupon now cid s =
        ({ status := 200, valid := true
           message := "Valid coupon - 10% discount applied at Swaad Station"
           discount := some c.discount },
         { s with coupons := set_used s.coupons cid })) := by
  refine ⟨fun h => ?_, fun c hc hu => ?_, fun c hc hu he => ?_, fun c hc hu he => ?_⟩ <;>
    simp [validate_coupon, *]

/-- Witness for C6: validating the unknown id "zzz" on the fresh store. -/
theorem validation_check_order_witness :
    find_coupon s0.coupons "zzz" = none ∧
    validate_coupon 0 "zzz" s0 =
      ({ status := 200, valid := false, message := "Coupon not found", discount := none },
       s0) :=
  ⟨rfl, (validation_check_order 0 "zzz" s0).1 rfl⟩

/-- C7: a reset-limit request from a non-privileged IP is answered 403
`Unauthorized` with the store (so the config record) unchanged, whatever
the body; a privileged request with a supplied limit sets the limit to it,
zeroes `current_count`, and reports the new limit. -/
theorem reset_limit_auth (master_ip client_ip : String) (body : Option Int) (n : Int)
    (s : AppState) :
    (client_ip ≠ master_ip →
      reset_limit master_ip client_ip body s = (.unauthorized 403 "Unauthorized", s)) ∧
    reset_limit master_ip master_ip (some n) s =
      (.ok ("Coupon limit reset to " ++ toString n) n,
       { s with config := { limit := n, current_count := 0 } }) := by
  constructor
  · intro h
    simp [reset_limit, h]
  · simp [reset_limit]

/-- Witness for C7: the spec scenario — payload limit 500 from the
non-privileged IP 5.6.7.8 is refused with 403 Unauthorized. -/
theorem reset_limit_auth_witness :
    ("5.6.7.8" : String) ≠ default_master_ip ∧
    reset_limit default_master_ip "5.6.7.8" (some 500) s0 =
      (.unauthorized 403 "Unauthorized", s0) :=
  ⟨by decide, (reset_limit_auth default_master_ip "5.6.7.8" (some 500) 500 s0).1 (by decide)⟩

/-- Every field of the two coupons agrees except possibly the used flag. -/
def same_except_used (c c' : Coupon) : Prop :=
  c'.id = c.id ∧ c'.valid = c.valid ∧ c'.expiry_date = c.expiry_date ∧
  c'.discount = c.discount ∧ c'.generating_ip = c.generating_ip ∧
  c'.generated_by_master = c.generated_by_master ∧ c'.created_at = c.created_at

/-- `set_used` rewrites the collection pointwise, touching nothing but the
used flag. -/
theorem forall2_set_used (coupons : List Coupon) (cid : String) :
    List.Forall₂ same_except_used coupons (set_used coupons cid) := by
  induction coupons with
  | nil => exact List.Forall₂.nil
  | cons a as ih =>
    by_cases ha : a.id == cid
    · simp only [set_used, ha, if_pos]
      exact List.Forall₂.cons ⟨rfl, rfl, rfl, rfl, rfl, rfl, rfl⟩
        (List.forall₂_same.mpr fun x _ => ⟨rfl, rfl, rfl, rfl, rfl, rfl, rfl⟩)
    · simp only [set_used, ha, if_neg, Bool.false_eq_true, not_false_iff]
      exact List.Forall₂.cons ⟨rfl, rfl, rfl, rfl, rfl, rfl, rfl⟩ ih

/-- C9: validation rewrites the coupon collection pointwise with every
field but the used flag preserved (in particular identifier, expiry,
discount, validity flag, originating IP, master flag and creation time are
unchanged), and no operation ever deletes a coupon record: issuance only
appends documents and reset-limit leaves the collection as it was. -/
theorem only_used_changes_no_delete (now : Nat) (cid master_ip client_ip coupon_id : String)
    (cookie_present : Bool) (body : Option Int) (s : AppState) :
    List.Forall₂ same_except_used s.coupons (validate_coupon now cid s).2.coupons ∧
    (∃ new_docs,
      (generate_coupon master_ip cookie_present client_ip coupon_id now s).2.coupons =
        s.coupons ++ new_docs) ∧
    (reset_limit master_ip client_ip body s).2.coupons = s.coupons := by
  refine ⟨?_, ?_, ?_⟩
  · have hrefl : List.Forall₂ same_except_used s.coupons s.coupons :=
      List.forall₂_same.mpr fun x _ => ⟨rfl, rfl, rfl, rfl, rfl, rfl, rfl⟩
    rcases hf : find_coupon s.coupons cid with _ | c
    · simpa [validate_coupon, hf] using hrefl
    · by_cases hu : c.used
      · simpa [validate_coupon, hf, hu] using hrefl
      · by_cases he : c.expiry_date < now
        · simpa [validate_coupon, hf, hu, he] using hrefl
        · simpa [validate_coupon, hf, hu, he] using forall2_set_used s.coupons cid
  · cases cookie_present
    · by_cases hg : !can_generate_coupon s.config && client_ip != master_ip
      · exact ⟨[], by simp [generate_coupon, hg]⟩
      · exact ⟨[{ id := coupon_id
                  valid := true
                  expiry_date := now + one_day
                  discount := "10%"
                  used := false
                  generating_ip := client_ip
                  generated_by_master := client_ip == master_ip
                  created_at := now }],
          by simp [generate_coupon, hg]⟩
    · exact ⟨[], by simp [generate_coupon]⟩
  · by_cases h : client_ip != master_ip
    · simp [reset_limit, h]
    · simp [reset_limit, h]

end SwaasStation
